import Mathlib

/-
Verification of the grant-ai upload pipeline specification.

Shallow embedding of the upload pipeline:
  - GrantAPI.uploadDocuments / GrantAPI.uploadDocumentsChunked (lib/api.ts,
    src/unnamed/part_003): size validation, the 30MB Cloud-Run routing
    decision, the direct multipart POST to /api/upload and the per-file
    POSTs to /api/upload-single.
  - ChunkedUploader.uploadFile, needsChunkedUpload, uploadFiles
    (dashboard.tsx bundle): 5MB chunk slicing, per-chunk retry loop with
    linear backoff, progress callbacks, init/chunk/finalize session calls.
  - the /api/upload-single proxy route (src/unnamed/part_001): 10-minute
    abort timeout, error-shape normalization, status-code preservation.

Network effects are modelled by an explicit trace of Request values and by
oracle structures (Net, ChunkEnv, FilesEnv, BackendOutcome) standing for
the responses the environment gives; thrown JS errors become Except values.
-/

/-- A browser File value: the upload pipeline only reads name and size. -/
structure File where
  name : String
  size : Nat
deriving DecidableEq, Repr

/-- 500MB per-file hard cap (api.ts: MAX_FILE_SIZE = 500 * 1024 * 1024). -/
def MAX_FILE_SIZE : Nat := 500 * 1024 * 1024

/-- 500MB batch-total hard cap (api.ts: MAX_TOTAL_SIZE = 500 * 1024 * 1024). -/
def MAX_TOTAL_SIZE : Nat := 500 * 1024 * 1024

/-- 30MB Cloud Run direct-request ceiling (api.ts: CLOUD_RUN_LIMIT = 30 * 1024 * 1024). -/
def CLOUD_RUN_LIMIT : Nat := 30 * 1024 * 1024

/-- 5MB chunk size (dashboard bundle: CHUNK_SIZE = 5 * 1024 * 1024). -/
def CHUNK_SIZE : Nat := 5 * 1024 * 1024

/-- Retry bound per chunk (dashboard bundle: MAX_RETRIES = 3). -/
def MAX_RETRIES : Nat := 3

/-- 25MB per-file chunking threshold (dashboard bundle: MAX_SIMPLE_UPLOAD inside needsChunkedUpload). -/
def MAX_SIMPLE_UPLOAD : Nat := 25 * 1024 * 1024

/-- One HTTP request issued by the client code; the pipeline can only ever
issue these five request shapes (there is no deletion endpoint). -/
inductive Request where
  /-- POST /api/upload, multipart with every file appended under field name files. -/
  | uploadBatch (files : List File)
  /-- POST /api/upload-single, multipart with one file under field name files. -/
  | uploadSingle (file : File)
  /-- POST /api/upload/init with fileName, totalBytes, totalChunks. -/
  | chunkInit (fileName : String) (totalBytes totalChunks : Nat)
  /-- POST /api/upload/chunk with uploadId, chunkIndex and the byte slice [start, stop). -/
  | chunkPost (uploadId : String) (chunkIndex start stop : Nat)
  /-- POST /api/upload/finalize with uploadId. -/
  | chunkFinalize (uploadId : String)
deriving DecidableEq, Repr

/-- The errors uploadDocuments / uploadDocumentsChunked can throw, kept
structured; errorMessage renders the exact JS Error message strings. -/
inductive UploadError where
  | noFiles
  | fileTooLarge (name : String) (size : Nat)
  | totalTooLarge (total : Nat)
  | singleUploadFailed (name : String) (status : Nat)
  | httpError (status : Nat) (body : String)
deriving DecidableEq, Repr

/-- Model of the JS expression (bytes / 1024 / 1024).toFixed(2): megabytes
rounded to two decimal places, rendered as a string. -/
def mbString (bytes : Nat) : String :=
  let h := (bytes * 100 + 524288) / 1048576
  toString (h / 100) ++ "." ++ (if h % 100 < 10 then "0" else "") ++ toString (h % 100)

/-- The exact message strings of the Error values thrown in api.ts. -/
def errorMessage : UploadError → String
  | .noFiles => "No files provided for upload"
  | .fileTooLarge name size =>
      "File \"" ++ name ++ "\" is " ++ mbString size ++ "MB. Maximum file size is 500MB."
  | .totalTooLarge total =>
      "Total upload size is " ++ mbString total ++
        "MB. Maximum total size is 500MB. Please upload fewer files at once."
  | .singleUploadFailed name status =>
      "Upload failed for " ++ name ++ ": " ++ toString status
  | .httpError status body =>
      "HTTP error! status: " ++ toString status ++ ", body: " ++ body

/-- files.reduce((sum, file) => sum + file.size, 0) from uploadDocuments. -/
def totalSizeOf (files : List File) : Nat :=
  files.foldl (fun sum f => sum + f.size) 0

/-- The JSON object uploadDocuments resolves with: either the body the
backend returned through /api/upload, or the object literal built by
uploadDocumentsChunked. -/
structure UploadResult where
  success : Bool
  artifact_ids : List String
  message : Option String
  upload_method : Option String
  file_urls : Option (List (String × String))
deriving DecidableEq, Repr

/-- Response oracle for the two GrantAPI endpoints: what /api/upload and
/api/upload-single answer. -/
structure Net where
  batchOk : Bool
  batchStatus : Nat
  batchErrorText : String
  batchResult : UploadResult
  singleOk : File → Bool
  singleStatus : File → Nat
  singleArtifacts : File → List String

/-- The per-file loop of uploadDocumentsChunked: POST each file whole to
/api/upload-single, stop and throw at the first non-ok response, otherwise
accumulate the artifact_ids of every response (results.flatMap). -/
def GrantAPI.uploadDocumentsChunkedAux (net : Net) :
    List File → Except UploadError (List String) × List Request
  | [] => (.ok [], [])
  | f :: fs =>
    let req := Request.uploadSingle f
    if net.singleOk f then
      let rest := GrantAPI.uploadDocumentsChunkedAux net fs
      (rest.1.map (fun ids => net.singleArtifacts f ++ ids), req :: rest.2)
    else
      (.error (.singleUploadFailed f.name (net.singleStatus f)), [req])

/-- GrantAPI.uploadDocumentsChunked (api.ts): uploads each file individually
to /api/upload-single and combines the results into a success object tagged
upload_method chunked. -/
def GrantAPI.uploadDocumentsChunked (net : Net) (files : List File) :
    Except UploadError UploadResult × List Request :=
  let r := GrantAPI.uploadDocumentsChunkedAux net files
  (r.1.map (fun ids =>
      { success := true
        artifact_ids := ids
        message := some ("Uploaded " ++ toString files.length ++ " large documents successfully (chunked)")
        upload_method := some ("chunked")
        file_urls := none }),
   r.2)

/-- GrantAPI.uploadDocuments (api.ts): empty-list check, per-file 500MB cap
(first offender throws), batch-total 500MB cap, then the 30MB Cloud Run
routing decision; below it, one direct multipart POST of all files to
/api/upload whose JSON body is returned, non-ok status throwing. -/
def GrantAPI.uploadDocuments (net : Net) (filesOpt : Option (List File)) :
    Except UploadError UploadResult × List Request :=
  match filesOpt with
  | none => (.error .noFiles, [])
  | some files =>
    if files.length = 0 then (.error .noFiles, [])
    else
      match files.find? (fun f => decide (MAX_FILE_SIZE < f.size)) with
      | some f => (.error (.fileTooLarge f.name f.size), [])
      | none =>
        if MAX_TOTAL_SIZE < totalSizeOf files then
          (.error (.totalTooLarge (totalSizeOf files)), [])
        else if CLOUD_RUN_LIMIT < totalSizeOf files then
          GrantAPI.uploadDocumentsChunked net files
        else
          if net.batchOk then (.ok net.batchResult, [Request.uploadBatch files])
          else (.error (.httpError net.batchStatus net.batchErrorText), [Request.uploadBatch files])

/-- totalChunks = Math.ceil(totalBytes / CHUNK_SIZE) from uploadFile,
written with exact natural-number ceiling division. -/
def totalChunksOf (totalBytes : Nat) : Nat :=
  (totalBytes + CHUNK_SIZE - 1) / CHUNK_SIZE

/-- start = chunkIndex * CHUNK_SIZE from the chunk loop of uploadFile. -/
def chunkStart (chunkIndex : Nat) : Nat :=
  chunkIndex * CHUNK_SIZE

/-- stop = Math.min(start + CHUNK_SIZE, totalBytes): the exclusive end of
the byte range file.slice(start, stop) sent for one chunk. -/
def chunkStop (totalBytes chunkIndex : Nat) : Nat :=
  min (chunkStart chunkIndex + CHUNK_SIZE) totalBytes

/-- Math.round((uploadedBytes / totalBytes) * 100) over exact rationals:
round-half-up of uploadedBytes * 100 / totalBytes. -/
def jsRound100 (uploadedBytes totalBytes : Nat) : Nat :=
  (2 * (uploadedBytes * 100) + totalBytes) / (2 * totalBytes)

/-- The ChunkUploadProgress value handed to the onProgress callback after a
chunk succeeds. -/
structure ProgressSample where
  fileName : String
  chunkIndex : Nat
  totalChunks : Nat
  uploadedBytes : Nat
  totalBytes : Nat
  percentage : Nat
deriving DecidableEq, Repr

/-- The progress sample emitted after chunk chunkIndex succeeds:
uploadedBytes is the stop offset of that chunk (cumulative bytes sent). -/
def progressSampleAt (fileName : String) (totalBytes totalChunks chunkIndex : Nat) : ProgressSample :=
  { fileName := fileName
    chunkIndex := chunkIndex
    totalChunks := totalChunks
    uploadedBytes := chunkStop totalBytes chunkIndex
    totalBytes := totalBytes
    percentage := jsRound100 (chunkStop totalBytes chunkIndex) totalBytes }

/-- The ChunkedUploadResult interface of the dashboard bundle. -/
structure ChunkedUploadResult where
  success : Bool
  uploadId : String
  fileName : String
  finalUrl : Option String
  error : Option String
deriving DecidableEq, Repr

/-- Environment oracle for one ChunkedUploader.uploadFile run: whether the
init call succeeds and with which uploadId, whether the attempt of chunk i
made with retry counter r succeeds, and how the finalize call answers. -/
structure ChunkEnv where
  initOk : Bool
  initStatus : Nat
  uploadId : String
  chunkOk : Nat → Nat → Bool
  finalizeOk : Bool
  finalizeStatus : Nat
  finalUrl : String

/-- The while-loop body of uploadFile for one chunk, with fuel
MAX_RETRIES - retries: while (!success && retries < MAX_RETRIES) attempt;
on failure retries++ and throw once retries >= MAX_RETRIES, otherwise wait
1000 * retries milliseconds and loop. Returns the number of attempts made,
the backoff delays slept between attempts, and whether the chunk
eventually succeeded. -/
def chunkAttemptLoopFuel (ok : Nat → Bool) : Nat → Nat → Nat × List Nat × Bool
  | _, 0 => (0, [], false)
  | retries, fuel + 1 =>
    if ok retries then (1, [], true)
    else if MAX_RETRIES ≤ retries + 1 then (1, [], false)
    else
      let t := chunkAttemptLoopFuel ok (retries + 1) fuel
      (t.1 + 1, (1000 * (retries + 1)) :: t.2.1, t.2.2)

/-- The retry loop entered with a given retry counter (uploadFile enters it
with retries = 0 for every chunk). -/
def chunkAttemptLoop (ok : Nat → Bool) (retries : Nat) : Nat × List Nat × Bool :=
  chunkAttemptLoopFuel ok retries (MAX_RETRIES - retries)

/-- The for-loop of uploadFile over chunk indices i, i+1, ... (fuel counts
the chunks still to send): each chunk is sliced with chunkStart/chunkStop,
POSTed once per attempt of its retry loop, and on success a progress sample
is reported; exhaustion of the retries throws the chunk-failure message. -/
def uploadChunksAux (env : ChunkEnv) (fileName uploadId : String) (totalBytes totalChunks : Nat) :
    Nat → Nat → Except String Unit × List Request × List ProgressSample
  | _, 0 => (.ok (), [], [])
  | i, fuel + 1 =>
    let att := chunkAttemptLoop (env.chunkOk i) 0
    let reqs := List.replicate att.1 (Request.chunkPost uploadId i (chunkStart i) (chunkStop totalBytes i))
    if att.2.2 then
      let rest := uploadChunksAux env fileName uploadId totalBytes totalChunks (i + 1) fuel
      (rest.1, reqs ++ rest.2.1, progressSampleAt fileName totalBytes totalChunks i :: rest.2.2)
    else
      (.error ("Failed to upload chunk " ++ toString (i + 1) ++ " after " ++
          toString MAX_RETRIES ++ " attempts"),
       reqs, [])

/-- ChunkedUploader.uploadFile (dashboard bundle): init the session, send
the chunks sequentially with the bounded retry loop, finalize, and catch
every thrown error into a structured failure result whose uploadId is the
empty string. Returns the result, the issued requests in order, and the
progress samples in emission order. -/
def ChunkedUploader.uploadFile (env : ChunkEnv) (file : File) :
    ChunkedUploadResult × List Request × List ProgressSample :=
  if env.initOk then
    match uploadChunksAux env file.name env.uploadId file.size (totalChunksOf file.size)
        0 (totalChunksOf file.size) with
    | (.error msg, reqs, ps) =>
        ({ success := false, uploadId := "", fileName := file.name, finalUrl := none,
           error := some msg },
         Request.chunkInit file.name file.size (totalChunksOf file.size) :: reqs, ps)
    | (.ok _, reqs, ps) =>
        if env.finalizeOk then
          ({ success := true, uploadId := env.uploadId, fileName := file.name,
             finalUrl := some env.finalUrl, error := none },
           Request.chunkInit file.name file.size (totalChunksOf file.size) :: reqs ++
             [Request.chunkFinalize env.uploadId],
           ps)
        else
          ({ success := false, uploadId := "", fileName := file.name, finalUrl := none,
             error := some ("Failed to finalize upload: " ++ toString env.finalizeStatus) },
           Request.chunkInit file.name file.size (totalChunksOf file.size) :: reqs ++
             [Request.chunkFinalize env.uploadId],
           ps)
  else
    ({ success := false, uploadId := "", fileName := file.name, finalUrl := none,
       error := some ("Failed to initialize upload: " ++ toString env.initStatus) },
     [Request.chunkInit file.name file.size (totalChunksOf file.size)], [])

/-- needsChunkedUpload (dashboard bundle): file.size > MAX_SIMPLE_UPLOAD. -/
def needsChunkedUpload (file : File) : Bool :=
  decide (MAX_SIMPLE_UPLOAD < file.size)

/-- Oracle for one uploadFiles run: the chunk-session environment a file
gets when routed through ChunkedUploader, and how /api/upload answers the
simple single-file POST of the other branch. -/
structure FilesEnv where
  chunkEnv : File → ChunkEnv
  simpleOk : File → Bool
  simpleErrorText : File → String

/-- One entry of the results array built by uploadFiles. -/
inductive FileOutcome where
  | chunked (fileName uploadId : String) (url : Option String)
  | simple (fileName : String)
deriving DecidableEq, Repr

/-- The per-file loop of uploadFiles (dashboard bundle): files needing
chunked upload go through ChunkedUploader.uploadFile, the rest are POSTed
one at a time to /api/upload under field name files; failures are collected
into the errors array instead of aborting the loop. -/
def uploadFilesAux (envF : FilesEnv) :
    List File → (List FileOutcome × List String) × List Request
  | [] => (([], []), [])
  | f :: fs =>
    if needsChunkedUpload f then
      let u := ChunkedUploader.uploadFile (envF.chunkEnv f) f
      let rest := uploadFilesAux envF fs
      if u.1.success then
        ((FileOutcome.chunked f.name u.1.uploadId u.1.finalUrl :: rest.1.1, rest.1.2),
         u.2.1 ++ rest.2)
      else
        ((rest.1.1, (f.name ++ ": " ++ u.1.error.getD ("")) :: rest.1.2), u.2.1 ++ rest.2)
    else
      let req := Request.uploadBatch [f]
      let rest := uploadFilesAux envF fs
      if envF.simpleOk f then
        ((FileOutcome.simple f.name :: rest.1.1, rest.1.2), req :: rest.2)
      else
        ((rest.1.1, (f.name ++ ": " ++ envF.simpleErrorText f) :: rest.1.2), req :: rest.2)

/-- uploadFiles (dashboard bundle): mixed-approach batch helper; success is
errors.length === 0. -/
def uploadFiles (envF : FilesEnv) (files : List File) :
    (Bool × List FileOutcome × List String) × List Request :=
  let r := uploadFilesAux envF files
  ((r.1.2.isEmpty, r.1.1, r.1.2), r.2)

/-- fetch Response.ok: status in the inclusive range 200..299. -/
def responseOk (status : Nat) : Bool :=
  decide (200 ≤ status) && decide (status < 300)

/-- The {success:false, error, details} JSON shape the proxy answers with
on a backend error. -/
structure ErrShape where
  success : Bool
  error : String
  details : String
deriving DecidableEq, Repr

/-- What the /api/upload-single route responds to the browser. -/
inductive ProxyResult (J : Type) where
  | ok (status : Nat) (body : J)
  | err (status : Nat) (body : ErrShape)
deriving DecidableEq, Repr

/-- What the backend does with the forwarded request: respond with a
status (error body text read on failure, JSON body on success), or make
fetch throw. -/
inductive BackendOutcome (J : Type) where
  | responds (status : Nat) (errorText : String) (json : J)
  | throws (msg : String)
deriving DecidableEq, Repr

/-- setTimeout(() => controller.abort(), 600000) in the route: the abort
signal of the backend forward fires after 10 minutes. -/
def SINGLE_UPLOAD_TIMEOUT_MS : Nat := 600000

/-- The POST handler of the /api/upload-single route (src/unnamed/part_001):
forward with the 10-minute abort timeout; non-ok backend status becomes
NextResponse.json({success:false, error, details}, {status}); an ok backend
response is returned as-is; a thrown error becomes a 500 proxy error.
Returns the response paired with the abort timeout the forward used. -/
def uploadSingleRoute {J : Type} : BackendOutcome J → ProxyResult J × Nat
  | .responds status errorText json =>
    if responseOk status then
      (.ok 200 json, SINGLE_UPLOAD_TIMEOUT_MS)
    else
      (.err status
         { success := false, error := "Backend error: " ++ toString status, details := errorText },
       SINGLE_UPLOAD_TIMEOUT_MS)
  | .throws msg =>
    (.err 500 { success := false, error := "Proxy server error", details := msg },
     SINGLE_UPLOAD_TIMEOUT_MS)

/-- A chunk-session request: init, chunk or finalize. The pipeline has no
request shape that deletes uploaded data. -/
def isSessionRequest : Request → Bool
  | .chunkInit _ _ _ => true
  | .chunkPost _ _ _ _ => true
  | .chunkFinalize _ => true
  | .uploadBatch _ => false
  | .uploadSingle _ => false

/-- Number of chunk POSTs in a request trace. -/
def chunkPostCount (trace : List Request) : Nat :=
  trace.countP (fun r => match r with | .chunkPost _ _ _ _ => true | _ => false)

/-- The chunk indices of the chunk POSTs of a trace, in trace order. -/
def chunkIndices (trace : List Request) : List Nat :=
  trace.filterMap (fun r => match r with | .chunkPost _ i _ _ => some i | _ => none)

/-- Number of finalize calls in a request trace. -/
def finalizeCount (trace : List Request) : Nat :=
  trace.countP (fun r => match r with | .chunkFinalize _ => true | _ => false)

/-- A network oracle where every endpoint answers successfully. -/
def okNet : Net :=
  { batchOk := true
    batchStatus := 200
    batchErrorText := ""
    batchResult :=
      { success := true, artifact_ids := [], message := none,
        upload_method := some ("standard"), file_urls := none }
    singleOk := fun _ => true
    singleStatus := fun _ => 200
    singleArtifacts := fun f => [f.name] }

/-- A chunk-session environment where init, every chunk attempt and
finalize all succeed. -/
def allOkEnv : ChunkEnv :=
  { initOk := true
    initStatus := 200
    uploadId := "uid-1"
    chunkOk := fun _ _ => true
    finalizeOk := true
    finalizeStatus := 200
    finalUrl := "https://storage.example.com/final" }

/-- A chunk-session environment whose init call fails with status 503. -/
def initFailEnv : ChunkEnv :=
  { allOkEnv with initOk := false, initStatus := 503 }

/-- A chunk-session environment where every chunk attempt fails. -/
def chunkFailEnv : ChunkEnv :=
  { allOkEnv with chunkOk := fun _ _ => false }

/-- A FilesEnv fixture with fully successful chunk sessions. -/
def okFilesEnv : FilesEnv :=
  { chunkEnv := fun _ => allOkEnv
    simpleOk := fun _ => true
    simpleErrorText := fun _ => "" }

/-- A 10MB file (end-to-end scenario A). -/
def file10 : File := { name := "report.pdf", size := 10 * 1024 * 1024 }

/-- A 12MB file: three 5MB chunks, the last one partial. -/
def file12 : File := { name := "deck.pptx", size := 12 * 1024 * 1024 }

/-- A 26MB file: over the 25MB per-file threshold, under the 30MB batch ceiling. -/
def file26 : File := { name := "audit.pdf", size := 26 * 1024 * 1024 }

/-- A 120MB file (end-to-end scenario B). -/
def file120 : File := { name := "appendix.zip", size := 120 * 1024 * 1024 }

/-- A 600MB file (end-to-end scenario D). -/
def file600 : File := { name := "archive.tar", size := 600 * 1024 * 1024 }

/-- Five 8MB files, 40MB combined (end-to-end scenario C). -/
def files40 : List File :=
  [ { name := "a1.pdf", size := 8 * 1024 * 1024 }
  , { name := "a2.pdf", size := 8 * 1024 * 1024 }
  , { name := "a3.pdf", size := 8 * 1024 * 1024 }
  , { name := "a4.pdf", size := 8 * 1024 * 1024 }
  , { name := "a5.pdf", size := 8 * 1024 * 1024 } ]

/-- Two 300MB files: each under the per-file cap, 600MB combined. -/
def files300x2 : List File :=
  [ { name := "video-a.mp4", size := 300 * 1024 * 1024 }
  , { name := "video-b.mp4", size := 300 * 1024 * 1024 } ]

/-- A chunk-session environment where every attempt of chunk 0 succeeds
and every attempt of every later chunk fails. -/
def chunk1FailEnv : ChunkEnv :=
  { allOkEnv with chunkOk := fun i _ => decide (i = 0) }

theorem CHUNK_SIZE_pos : 0 < CHUNK_SIZE := by decide

theorem totalChunksOf_eq_succ (n : Nat) (hn : 0 < n) :
    totalChunksOf n = (n - 1) / CHUNK_SIZE + 1 := by
  unfold totalChunksOf
  have h : n + CHUNK_SIZE - 1 = (n - 1) + CHUNK_SIZE := by omega
  rw [h, Nat.add_div_right _ CHUNK_SIZE_pos]

theorem le_totalChunksOf_mul (n : Nat) (hn : 0 < n) :
    n ≤ totalChunksOf n * CHUNK_SIZE := by
  rw [totalChunksOf_eq_succ n hn, Nat.succ_mul]
  have hmod := Nat.div_add_mod (n - 1) CHUNK_SIZE
  have hlt : (n - 1) % CHUNK_SIZE < CHUNK_SIZE := Nat.mod_lt _ CHUNK_SIZE_pos
  have hcomm : CHUNK_SIZE * ((n - 1) / CHUNK_SIZE) = (n - 1) / CHUNK_SIZE * CHUNK_SIZE :=
    Nat.mul_comm _ _
  omega

theorem pred_totalChunksOf_mul_lt (n : Nat) (hn : 0 < n) :
    (totalChunksOf n - 1) * CHUNK_SIZE < n := by
  rw [totalChunksOf_eq_succ n hn]
  simp only [Nat.add_sub_cancel]
  have h := Nat.div_mul_le_self (n - 1) CHUNK_SIZE
  omega

theorem chunkStop_eq_chunkStart_succ (n i : Nat) (hn : 0 < n)
    (h : i + 1 < totalChunksOf n) :
    chunkStop n i = chunkStart (i + 1) := by
  unfold chunkStop chunkStart
  have hle : (i + 1) * CHUNK_SIZE ≤ (totalChunksOf n - 1) * CHUNK_SIZE :=
    Nat.mul_le_mul_right _ (by omega)
  have hlt := pred_totalChunksOf_mul_lt n hn
  have : i * CHUNK_SIZE + CHUNK_SIZE = (i + 1) * CHUNK_SIZE := (Nat.succ_mul i CHUNK_SIZE).symm
  omega

theorem chunk_len_sum (n : Nat) (hn : 0 < n) :
    ∀ k, k ≤ totalChunksOf n →
      (∑ i in Finset.range k, (chunkStop n i - chunkStart i)) = min (k * CHUNK_SIZE) n := by
  intro k
  induction k with
  | zero => intro _; simp
  | succ k ih =>
    intro hk
    have hk' : k ≤ totalChunksOf n := by omega
    rw [Finset.sum_range_succ, ih hk']
    have hkC : k * CHUNK_SIZE ≤ (totalChunksOf n - 1) * CHUNK_SIZE :=
      Nat.mul_le_mul_right _ (by omega)
    have hlt := pred_totalChunksOf_mul_lt n hn
    have hkn : k * CHUNK_SIZE < n := by omega
    have hsucc : k * CHUNK_SIZE + CHUNK_SIZE = (k + 1) * CHUNK_SIZE := (Nat.succ_mul k CHUNK_SIZE).symm
    unfold chunkStop chunkStart
    omega

theorem jsRound100_mono (u v t : Nat) (h : u ≤ v) :
    jsRound100 u t ≤ jsRound100 v t := by
  unfold jsRound100
  exact Nat.div_le_div_right (by omega)

theorem jsRound100_self (t : Nat) (ht : 0 < t) : jsRound100 t t = 100 := by
  unfold jsRound100
  have h1 : 2 * (t * 100) + t = 2 * t * 100 + t := by ring
  have h2 : t / (2 * t) = 0 := Nat.div_eq_of_lt (by omega)
  rw [h1, Nat.mul_add_div (by omega), h2]

theorem chunkAttemptLoop_first_try (ok : Nat → Bool) (h : ok 0 = true) :
    chunkAttemptLoop ok 0 = (1, [], true) := by
  unfold chunkAttemptLoop chunkAttemptLoopFuel
  simp [h, MAX_RETRIES]

theorem chunkedAux_only_single (net : Net) :
    ∀ files, ∀ r ∈ (GrantAPI.uploadDocumentsChunkedAux net files).2,
      ∃ f, r = Request.uploadSingle f := by
  intro files
  induction files with
  | nil => intro r hr; simp [GrantAPI.uploadDocumentsChunkedAux] at hr
  | cons f fs ih =>
    intro r hr
    by_cases h : net.singleOk f = true
    · simp only [GrantAPI.uploadDocumentsChunkedAux, h, if_true, List.mem_cons] at hr
      rcases hr with hr | hr
      · exact ⟨f, hr⟩
      · exact ih r hr
    · simp only [GrantAPI.uploadDocumentsChunkedAux, h, if_false, Bool.false_eq_true,
        List.mem_singleton] at hr
      exact ⟨f, hr⟩

theorem uploadChunksAux_allOk (env : ChunkEnv) (fn uid : String) (n tc : Nat)
    (hok : ∀ i, env.chunkOk i 0 = true) :
    ∀ fuel i, uploadChunksAux env fn uid n tc i fuel =
      (.ok (),
       (List.range' i fuel).map (fun j => Request.chunkPost uid j (chunkStart j) (chunkStop n j)),
       (List.range' i fuel).map (progressSampleAt fn n tc)) := by
  intro fuel
  induction fuel with
  | zero => intro i; rfl
  | succ fuel ih =>
    intro i
    simp only [uploadChunksAux, chunkAttemptLoop_first_try _ (hok i), ih (i + 1),
      List.range'_succ, List.map_cons, List.replicate, if_true]
    rfl

theorem uploadChunksAux_session (env : ChunkEnv) (fn uid : String) (n tc : Nat) :
    ∀ fuel i, ∀ r ∈ (uploadChunksAux env fn uid n tc i fuel).2.1,
      isSessionRequest r = true := by
  intro fuel
  induction fuel with
  | zero => intro i r hr; simp [uploadChunksAux] at hr
  | succ fuel ih =>
    intro i r hr
    by_cases h : (chunkAttemptLoop (env.chunkOk i) 0).2.2 = true
    · simp only [uploadChunksAux, h, if_true, List.mem_append] at hr
      rcases hr with hr | hr
      · rw [List.eq_of_mem_replicate hr]; rfl
      · exact ih (i + 1) r hr
    · simp only [uploadChunksAux, h, if_false, Bool.false_eq_true] at hr
      rw [List.eq_of_mem_replicate hr]; rfl

/-- C10: invoking uploadDocuments with a missing or empty file list throws
the error whose message is No files provided for upload, with an empty
request trace: no size validation result and no network call precedes it. -/
theorem c10_empty_rejection (net : Net) :
    GrantAPI.uploadDocuments net none = (.error .noFiles, [])
  ∧ GrantAPI.uploadDocuments net (some []) = (.error .noFiles, [])
  ∧ errorMessage .noFiles = "No files provided for upload" :=
  ⟨rfl, rfl, rfl⟩

/-- C8: the /api/upload-single proxy forwards with a 600000ms abort
timeout; a backend non-success status yields the normalized
success-false error-details JSON shape carrying the backend error body
text under the backend status code; a backend success is returned as the
backend JSON body unchanged. -/
theorem c8_upload_single_proxy {J : Type} (b : BackendOutcome J) :
    (uploadSingleRoute b).2 = 600000
  ∧ (∀ status errorText json, b = .responds status errorText json →
      responseOk status = false →
      (uploadSingleRoute b).1 = .err status
        { success := false, error := "Backend error: " ++ toString status, details := errorText })
  ∧ (∀ status errorText json, b = .responds status errorText json →
      responseOk status = true →
      (uploadSingleRoute b).1 = .ok 200 json) := by
  refine ⟨?_, ?_, ?_⟩
  · cases b with
    | responds status errorText json =>
        by_cases h : responseOk status = true <;>
          simp [uploadSingleRoute, h, SINGLE_UPLOAD_TIMEOUT_MS]
    | throws msg => rfl
  · rintro status errorText json rfl h
    simp [uploadSingleRoute, h]
  · rintro status errorText json rfl h
    simp [uploadSingleRoute, h]

/-- Witness for C8 at a concrete 415 backend rejection and a concrete 200
backend success, with String standing for the opaque JSON body. -/
theorem c8_upload_single_proxy_witness :
    (uploadSingleRoute (BackendOutcome.responds 415 "unsupported format" "artifact-7")).1 =
      ProxyResult.err 415
        { success := false, error := "Backend error: " ++ toString 415,
          details := "unsupported format" }
  ∧ (uploadSingleRoute (BackendOutcome.responds 200 "" "artifact-7")).1 =
      ProxyResult.ok 200 "artifact-7" :=
  ⟨(c8_upload_single_proxy (BackendOutcome.responds 415 "unsupported format" "artifact-7")).2.1
      415 "unsupported format" "artifact-7" rfl (by decide),
   (c8_upload_single_proxy (BackendOutcome.responds 200 "" "artifact-7")).2.2
      200 "" "artifact-7" rfl (by decide)⟩

/-- C4: for a positive file size, totalChunks is the ceiling of
totalBytes / CHUNK_SIZE (totalChunks * CHUNK_SIZE covers the file and one
chunk fewer does not), the sliced byte ranges are pairwise disjoint and
contiguous, and their lengths sum to exactly totalBytes. -/
theorem c4_chunk_partition (totalBytes : Nat) (h : 0 < totalBytes) :
    totalBytes ≤ totalChunksOf totalBytes * CHUNK_SIZE
  ∧ (totalChunksOf totalBytes - 1) * CHUNK_SIZE < totalBytes
  ∧ (∀ i j, i < j → chunkStop totalBytes i ≤ chunkStart j)
  ∧ (∀ i, i + 1 < totalChunksOf totalBytes → chunkStop totalBytes i = chunkStart (i + 1))
  ∧ (∑ i in Finset.range (totalChunksOf totalBytes),
      (chunkStop totalBytes i - chunkStart i)) = totalBytes := by
  refine ⟨le_totalChunksOf_mul totalBytes h, pred_totalChunksOf_mul_lt totalBytes h, ?_, ?_, ?_⟩
  · intro i j hij
    have h2 : (i + 1) * CHUNK_SIZE ≤ j * CHUNK_SIZE := Nat.mul_le_mul_right _ hij
    unfold chunkStop chunkStart
    have h3 : i * CHUNK_SIZE + CHUNK_SIZE = (i + 1) * CHUNK_SIZE := (Nat.succ_mul i CHUNK_SIZE).symm
    have h1 : min (i * CHUNK_SIZE + CHUNK_SIZE) totalBytes ≤ i * CHUNK_SIZE + CHUNK_SIZE :=
      Nat.min_le_left _ _
    omega
  · intro i hi
    exact chunkStop_eq_chunkStart_succ totalBytes i h hi
  · rw [chunk_len_sum totalBytes h (totalChunksOf totalBytes) (Nat.le_refl _)]
    exact Nat.min_eq_right (le_totalChunksOf_mul totalBytes h)

/-- Witness for C4 at a concrete 12MB file size (three chunks, the last
one partial). -/
theorem c4_chunk_partition_witness :
    0 < file12.size
  ∧ file12.size ≤ totalChunksOf file12.size * CHUNK_SIZE
  ∧ (∑ i in Finset.range (totalChunksOf file12.size),
      (chunkStop file12.size i - chunkStart i)) = file12.size :=
  ⟨by decide, (c4_chunk_partition file12.size (by decide)).1,
   (c4_chunk_partition file12.size (by decide)).2.2.2.2⟩

theorem chunkAttemptLoop_all_fail (ok : Nat → Bool)
    (hf : ∀ r, r < MAX_RETRIES → ok r = false) :
    chunkAttemptLoop ok 0 = (3, [1000 * 1, 1000 * 2], false) := by
  have h0 := hf 0 (by decide)
  have h1 := hf 1 (by decide)
  have h2 := hf 2 (by decide)
  unfold chunkAttemptLoop
  simp [chunkAttemptLoopFuel, MAX_RETRIES, h0, h1, h2]

theorem uploadChunksAux_fail0 (env : ChunkEnv) (fn uid : String) (n tc q : Nat)
    (hloop : (chunkAttemptLoop (env.chunkOk 0) 0).2.2 = false) :
    uploadChunksAux env fn uid n tc 0 (q + 1) =
      (.error ("Failed to upload chunk " ++ toString (0 + 1) ++ " after " ++
          toString MAX_RETRIES ++ " attempts"),
       List.replicate (chunkAttemptLoop (env.chunkOk 0) 0).1
         (Request.chunkPost uid 0 (chunkStart 0) (chunkStop n 0)),
       []) := by
  rw [uploadChunksAux, hloop]
  simp

theorem chunkAttemptLoop_succeeds (ok : Nat → Bool)
    (h : ∃ r, r < MAX_RETRIES ∧ ok r = true) :
    (chunkAttemptLoop ok 0).2.2 = true := by
  by_cases h0 : ok 0 = true
  · rw [chunkAttemptLoop_first_try ok h0]
  · by_cases h1 : ok 1 = true
    · unfold chunkAttemptLoop chunkAttemptLoopFuel
      simp [chunkAttemptLoopFuel, MAX_RETRIES, h0, h1]
    · by_cases h2 : ok 2 = true
      · unfold chunkAttemptLoop chunkAttemptLoopFuel
        simp [chunkAttemptLoopFuel, MAX_RETRIES, h0, h1, h2]
      · exfalso
        obtain ⟨r, hr, hok⟩ := h
        have hr3 : r < 3 := hr
        interval_cases r
        · exact h0 hok
        · exact h1 hok
        · exact h2 hok

theorem uploadChunksAux_fail_at (env : ChunkEnv) (fn uid : String) (n tc : Nat) :
    ∀ fuel i c, i ≤ c → c < i + fuel →
      (∀ j, i ≤ j → j < c → (chunkAttemptLoop (env.chunkOk j) 0).2.2 = true) →
      (chunkAttemptLoop (env.chunkOk c) 0).2.2 = false →
      (uploadChunksAux env fn uid n tc i fuel).1 =
        .error ("Failed to upload chunk " ++ toString (c + 1) ++ " after " ++
          toString MAX_RETRIES ++ " attempts") := by
  intro fuel
  induction fuel with
  | zero => intro i c hic hlt _ _; omega
  | succ fuel ih =>
    intro i c hic hlt hbefore hc
    by_cases hi : i = c
    · subst hi
      simp only [uploadChunksAux]
      rw [if_neg (by rw [hc]; exact Bool.false_ne_true)]
    · have hsucc : (chunkAttemptLoop (env.chunkOk i) 0).2.2 = true :=
        hbefore i (Nat.le_refl i) (by omega)
      simp only [uploadChunksAux, hsucc, if_true]
      exact ih (i + 1) c (by omega) (by omega)
        (fun j h1 h2 => hbefore j (by omega) h2) hc

/-- C5: a chunk whose attempts all fail is attempted exactly 3 times with
backoff delays 1000ms * 1 and 1000ms * 2 slept between attempts and no 4th
attempt; an attempt succeeding with retry counter k ends the loop after
k + 1 attempts with success; a chunk whose retry loop succeeds makes the
chunk loop advance to the next chunk index; and in any run where every
chunk before index c succeeds within the retry bound and chunk c fails all
its attempts, the whole file upload returns success = false carrying the
chunk-failure message for chunk c. -/
theorem c5_retry_bound :
    (∀ ok : Nat → Bool, (∀ r, r < MAX_RETRIES → ok r = false) →
        chunkAttemptLoop ok 0 = (3, [1000 * 1, 1000 * 2], false))
  ∧ (∀ ok : Nat → Bool, ∀ k, k < MAX_RETRIES → (∀ r, r < k → ok r = false) → ok k = true →
        (chunkAttemptLoop ok 0).1 = k + 1 ∧ (chunkAttemptLoop ok 0).2.2 = true)
  ∧ (∀ (env : ChunkEnv) (fn uid : String) (n tc fuel i : Nat),
        (chunkAttemptLoop (env.chunkOk i) 0).2.2 = true →
        uploadChunksAux env fn uid n tc i (fuel + 1) =
          ((uploadChunksAux env fn uid n tc (i + 1) fuel).1,
           List.replicate (chunkAttemptLoop (env.chunkOk i) 0).1
               (Request.chunkPost uid i (chunkStart i) (chunkStop n i)) ++
             (uploadChunksAux env fn uid n tc (i + 1) fuel).2.1,
           progressSampleAt fn n tc i ::
             (uploadChunksAux env fn uid n tc (i + 1) fuel).2.2))
  ∧ (∀ (env : ChunkEnv) (file : File) (c : Nat), env.initOk = true →
        c < totalChunksOf file.size →
        (∀ j, j < c → ∃ r, r < MAX_RETRIES ∧ env.chunkOk j r = true) →
        (∀ r, r < MAX_RETRIES → env.chunkOk c r = false) →
        (ChunkedUploader.uploadFile env file).1.success = false
      ∧ (ChunkedUploader.uploadFile env file).1.error =
          some ("Failed to upload chunk " ++ toString (c + 1) ++ " after " ++
            toString MAX_RETRIES ++ " attempts")) := by
  refine ⟨chunkAttemptLoop_all_fail, ?_, ?_, ?_⟩
  · intro ok k hk hbefore hk'
    have hk3 : k < 3 := hk
    interval_cases k
    · rw [chunkAttemptLoop_first_try ok hk']
      exact ⟨rfl, rfl⟩
    · have h0 := hbefore 0 (by decide)
      unfold chunkAttemptLoop
      simp [chunkAttemptLoopFuel, MAX_RETRIES, h0, hk']
    · have h0 := hbefore 0 (by decide)
      have h1 := hbefore 1 (by decide)
      unfold chunkAttemptLoop
      simp [chunkAttemptLoopFuel, MAX_RETRIES, h0, h1, hk']
  · intro env fn uid n tc fuel i h
    simp only [uploadChunksAux, h, if_true]
  · intro env file c hinit hc hbefore hfail
    have hcf : (chunkAttemptLoop (env.chunkOk c) 0).2.2 = false := by
      rw [chunkAttemptLoop_all_fail (env.chunkOk c) hfail]
    have hbefore' : ∀ j, 0 ≤ j → j < c → (chunkAttemptLoop (env.chunkOk j) 0).2.2 = true :=
      fun j _ hj => chunkAttemptLoop_succeeds (env.chunkOk j) (hbefore j hj)
    have hfst := uploadChunksAux_fail_at env file.name env.uploadId file.size
      (totalChunksOf file.size) (totalChunksOf file.size) 0 c (Nat.zero_le c)
      (by omega) hbefore' hcf
    unfold ChunkedUploader.uploadFile
    rw [hinit, if_pos rfl]
    rcases hm : uploadChunksAux env file.name env.uploadId file.size (totalChunksOf file.size)
        0 (totalChunksOf file.size) with ⟨res, reqs, ps⟩
    rw [hm] at hfst
    cases res with
    | error msg =>
        have hmsg : msg = "Failed to upload chunk " ++ toString (c + 1) ++ " after " ++
            toString MAX_RETRIES ++ " attempts" := by
          simpa using hfst
        subst hmsg
        exact ⟨rfl, rfl⟩
    | ok u => exact absurd hfst (by simp)

/-- Witness for C5: an always-failing chunk oracle makes exactly 3
attempts with delays 1000ms and 2000ms; an oracle succeeding on its second
attempt stops after 2 attempts; a succeeding chunk 0 advances the loop to
chunk 1; and a 12MB file whose chunk 1 always fails while chunk 0 succeeds
ends with success = false and the chunk-2 failure message. -/
theorem c5_retry_bound_witness :
    chunkAttemptLoop (fun _ => false) 0 = (3, [1000 * 1, 1000 * 2], false)
  ∧ (chunkAttemptLoop (fun r => decide (r = 1)) 0).1 = 1 + 1
  ∧ (chunkAttemptLoop (fun r => decide (r = 1)) 0).2.2 = true
  ∧ uploadChunksAux chunk1FailEnv file12.name chunk1FailEnv.uploadId file12.size
        (totalChunksOf file12.size) 0 (2 + 1) =
      ((uploadChunksAux chunk1FailEnv file12.name chunk1FailEnv.uploadId file12.size
          (totalChunksOf file12.size) (0 + 1) 2).1,
       List.replicate (chunkAttemptLoop (chunk1FailEnv.chunkOk 0) 0).1
           (Request.chunkPost chunk1FailEnv.uploadId 0 (chunkStart 0)
             (chunkStop file12.size 0)) ++
         (uploadChunksAux chunk1FailEnv file12.name chunk1FailEnv.uploadId file12.size
            (totalChunksOf file12.size) (0 + 1) 2).2.1,
       progressSampleAt file12.name file12.size (totalChunksOf file12.size) 0 ::
         (uploadChunksAux chunk1FailEnv file12.name chunk1FailEnv.uploadId file12.size
            (totalChunksOf file12.size) (0 + 1) 2).2.2)
  ∧ (ChunkedUploader.uploadFile chunk1FailEnv file12).1.success = false
  ∧ (ChunkedUploader.uploadFile chunk1FailEnv file12).1.error =
      some ("Failed to upload chunk " ++ toString (1 + 1) ++ " after " ++
        toString MAX_RETRIES ++ " attempts") :=
  ⟨c5_retry_bound.1 (fun _ => false) (fun _ _ => rfl),
   (c5_retry_bound.2.1 (fun r => decide (r = 1)) 1 (by decide) (by decide) (by decide)).1,
   (c5_retry_bound.2.1 (fun r => decide (r = 1)) 1 (by decide) (by decide) (by decide)).2,
   c5_retry_bound.2.2.1 chunk1FailEnv file12.name chunk1FailEnv.uploadId file12.size
     (totalChunksOf file12.size) 2 0 (by decide),
   (c5_retry_bound.2.2.2 chunk1FailEnv file12 1 rfl (by decide)
       (fun j hj => ⟨0, by decide, by interval_cases j; rfl⟩) (by decide)).1,
   (c5_retry_bound.2.2.2 chunk1FailEnv file12 1 rfl (by decide)
       (fun j hj => ⟨0, by decide, by interval_cases j; rfl⟩) (by decide)).2⟩

/-- C1: for a nonempty batch passing both 500MB caps, a combined size over
30MB routes the whole invocation to uploadDocumentsChunked (and no POST to
/api/upload appears in the trace), while a combined size of at most 30MB
issues exactly one direct multipart POST to /api/upload carrying all the
files under field name files. -/
theorem c1_batch_threshold_routing (net : Net) (files : List File) (hne : files ≠ [])
    (hfile : ∀ f ∈ files, f.size ≤ MAX_FILE_SIZE)
    (htotal : totalSizeOf files ≤ MAX_TOTAL_SIZE) :
    (CLOUD_RUN_LIMIT < totalSizeOf files →
        GrantAPI.uploadDocuments net (some files) = GrantAPI.uploadDocumentsChunked net files
      ∧ ∀ r ∈ (GrantAPI.uploadDocuments net (some files)).2, ∀ fs, r ≠ Request.uploadBatch fs)
  ∧ (totalSizeOf files ≤ CLOUD_RUN_LIMIT →
        (GrantAPI.uploadDocuments net (some files)).2 = [Request.uploadBatch files]) := by
  have hlen : ¬files.length = 0 := by
    simpa using hne
  have hfind : files.find? (fun f => decide (MAX_FILE_SIZE < f.size)) = none := by
    rw [List.find?_eq_none]
    intro f hf
    simpa using Nat.not_lt.mpr (hfile f hf)
  have hts : ¬MAX_TOTAL_SIZE < totalSizeOf files := Nat.not_lt.mpr htotal
  constructor
  · intro hgt
    have e : GrantAPI.uploadDocuments net (some files) = GrantAPI.uploadDocumentsChunked net files := by
      simp only [GrantAPI.uploadDocuments, if_neg hlen, hfind, if_neg hts, if_pos hgt]
    refine ⟨e, ?_⟩
    rw [e]
    intro r hr fs
    have hr' : r ∈ (GrantAPI.uploadDocumentsChunkedAux net files).2 := by
      simpa [GrantAPI.uploadDocumentsChunked] using hr
    obtain ⟨f, rfl⟩ := chunkedAux_only_single net files r hr'
    simp
  · intro hle
    have hgt : ¬CLOUD_RUN_LIMIT < totalSizeOf files := Nat.not_lt.mpr hle
    cases hb : net.batchOk <;>
      simp [GrantAPI.uploadDocuments, if_neg hlen, hfind, if_neg hts, if_neg hgt, hb, hne]

/-- Witness for C1: the 40MB batch of five 8MB files is routed whole to
uploadDocumentsChunked, and a single 10MB file gives exactly one direct
POST to /api/upload. -/
theorem c1_batch_threshold_routing_witness :
    GrantAPI.uploadDocuments okNet (some files40) = GrantAPI.uploadDocumentsChunked okNet files40
  ∧ (GrantAPI.uploadDocuments okNet (some [file10])).2 = [Request.uploadBatch [file10]] :=
  ⟨((c1_batch_threshold_routing okNet files40 (by decide) (by decide) (by decide)).1
      (by decide)).1,
   (c1_batch_threshold_routing okNet [file10] (by decide) (by decide) (by decide)).2
      (by decide)⟩

/-- Counterexample for C3 as stated: a batch of two 300MB files passes the
per-file cap but exceeds the 500MB total cap, and the thrown error carries
only the total size: it is not a fileTooLarge error and its rendered
message names no file. -/
theorem c3_preflight_counterexample :
    (GrantAPI.uploadDocuments okNet (some files300x2)).1 =
      .error (.totalTooLarge (600 * 1024 * 1024))
  ∧ (∀ name size,
      (GrantAPI.uploadDocuments okNet (some files300x2)).1 ≠
        .error (.fileTooLarge name size))
  ∧ errorMessage (.totalTooLarge (600 * 1024 * 1024)) =
      "Total upload size is 600.00MB. Maximum total size is 500MB. Please upload fewer files at once." := by
  refine ⟨rfl, ?_, rfl⟩
  intro name size h
  rw [show (GrantAPI.uploadDocuments okNet (some files300x2)).1 =
      .error (.totalTooLarge (600 * 1024 * 1024)) from rfl] at h
  simp at h

/-- C3 amended: for a nonempty batch, any file over the 500MB cap makes
uploadDocuments throw, before any network call, the fileTooLarge error
naming that file and its byte size (rendered in MB by errorMessage) — this
per-file check runs before the total check; a batch within the per-file cap
whose total exceeds 500MB throws, before any network call, the
totalTooLarge error carrying only the combined size. -/
theorem c3_preflight_validation (net : Net) (files : List File) (hne : files ≠ []) :
    ((∃ f ∈ files, MAX_FILE_SIZE < f.size) →
      ∃ f ∈ files, MAX_FILE_SIZE < f.size ∧
        GrantAPI.uploadDocuments net (some files) = (.error (.fileTooLarge f.name f.size), []))
  ∧ ((∀ f ∈ files, f.size ≤ MAX_FILE_SIZE) → MAX_TOTAL_SIZE < totalSizeOf files →
      GrantAPI.uploadDocuments net (some files) =
        (.error (.totalTooLarge (totalSizeOf files)), [])) := by
  have hlen : ¬files.length = 0 := by simpa using hne
  constructor
  · intro hex
    have hsome : (files.find? (fun f => decide (MAX_FILE_SIZE < f.size))).isSome := by
      rw [List.find?_isSome]
      obtain ⟨f, hf, h⟩ := hex
      exact ⟨f, hf, by simpa using h⟩
    obtain ⟨f0, hf0⟩ := Option.isSome_iff_exists.mp hsome
    refine ⟨f0, List.mem_of_find?_eq_some hf0, by simpa using List.find?_some hf0, ?_⟩
    simp only [GrantAPI.uploadDocuments, if_neg hlen, hf0]
  · intro hfile htotal
    have hfind : files.find? (fun f => decide (MAX_FILE_SIZE < f.size)) = none := by
      rw [List.find?_eq_none]
      intro f hf
      simpa using Nat.not_lt.mpr (hfile f hf)
    simp only [GrantAPI.uploadDocuments, if_neg hlen, hfind, if_pos htotal]

/-- Witness for C3: a single 600MB file is rejected with the fileTooLarge
error naming it, and the two-file 600MB batch with the totalTooLarge
error, both with an empty request trace. -/
theorem c3_preflight_validation_witness :
    (∃ f ∈ [file600], MAX_FILE_SIZE < f.size ∧
        GrantAPI.uploadDocuments okNet (some [file600]) =
          (.error (.fileTooLarge f.name f.size), []))
  ∧ GrantAPI.uploadDocuments okNet (some files300x2) =
      (.error (.totalTooLarge (totalSizeOf files300x2)), []) :=
  ⟨(c3_preflight_validation okNet [file600] (by decide)).1 ⟨file600, by decide, by decide⟩,
   (c3_preflight_validation okNet files300x2 (by decide)).2 (by decide) (by decide)⟩

theorem chunkStop_mono (n i : Nat) : chunkStop n i ≤ chunkStop n (i + 1) := by
  unfold chunkStop chunkStart
  have h : i * CHUNK_SIZE ≤ (i + 1) * CHUNK_SIZE := Nat.mul_le_mul_right _ (Nat.le_succ i)
  exact min_le_min (by omega) (Nat.le_refl n)

theorem uploadChunksAux_samples (env : ChunkEnv) (fn uid : String) (n tc : Nat) :
    ∀ fuel i, ∃ k, k ≤ fuel ∧
      (uploadChunksAux env fn uid n tc i fuel).2.2 =
        (List.range' i k).map (progressSampleAt fn n tc) := by
  intro fuel
  induction fuel with
  | zero => intro i; exact ⟨0, Nat.le_refl 0, rfl⟩
  | succ fuel ih =>
    intro i
    by_cases h : (chunkAttemptLoop (env.chunkOk i) 0).2.2 = true
    · obtain ⟨k, hk, he⟩ := ih (i + 1)
      refine ⟨k + 1, by omega, ?_⟩
      simp only [uploadChunksAux, h, if_true, List.range'_succ, List.map_cons]
      rw [he]
    · refine ⟨0, Nat.zero_le _, ?_⟩
      simp only [uploadChunksAux]
      rw [if_neg h]
      rfl

theorem uploadFile_samples (env : ChunkEnv) (file : File) :
    ∃ k, k ≤ totalChunksOf file.size ∧
      (ChunkedUploader.uploadFile env file).2.2 =
        (List.range' 0 k).map
          (progressSampleAt file.name file.size (totalChunksOf file.size)) := by
  by_cases hinit : env.initOk
  · obtain ⟨k, hk, he⟩ := uploadChunksAux_samples env file.name env.uploadId file.size
      (totalChunksOf file.size) (totalChunksOf file.size) 0
    refine ⟨k, hk, ?_⟩
    unfold ChunkedUploader.uploadFile
    rw [if_pos hinit]
    rcases hm : uploadChunksAux env file.name env.uploadId file.size (totalChunksOf file.size)
        0 (totalChunksOf file.size) with ⟨res, reqs, ps⟩
    rw [hm] at he
    cases res with
    | error msg => exact he
    | ok u =>
      cases hfin : env.finalizeOk
      · exact he
      · exact he
  · refine ⟨0, Nat.zero_le _, ?_⟩
    unfold ChunkedUploader.uploadFile
    rw [if_neg hinit]
    rfl

theorem chain_le_map_range' (f : Nat → Nat) (hf : ∀ j, f j ≤ f (j + 1)) :
    ∀ (k a : Nat), List.Chain' (· ≤ ·) ((List.range' a k).map f) := by
  intro k
  induction k with
  | zero => intro a; exact List.chain'_nil
  | succ k ih =>
    intro a
    rw [List.range'_succ, List.map_cons]
    refine List.chain'_cons'.mpr ⟨?_, ih (a + 1)⟩
    intro y hy
    cases k with
    | zero => simp at hy
    | succ k2 =>
      rw [List.range'_succ, List.map_cons] at hy
      simp only [List.head?_cons, Option.mem_def, Option.some.injEq] at hy
      rw [← hy]
      exact hf a

/-- C6: in every run of uploadFile on a nonempty file, the progress
samples emitted are exactly one per successfully uploaded chunk, covering
a prefix of the chunk indices in order (each sample carrying the rounded
percentage of the cumulative bytes after its chunk over totalBytes), and
their percentages are non-decreasing; in a run where init and all chunk
attempts succeed, the samples cover every chunk and the final percentage
is 100. -/
theorem c6_progress_monotone (env : ChunkEnv) (file : File) (hpos : 0 < file.size) :
    (∃ k, k ≤ totalChunksOf file.size ∧
        (ChunkedUploader.uploadFile env file).2.2 =
          (List.range' 0 k).map
            (progressSampleAt file.name file.size (totalChunksOf file.size)))
  ∧ List.Chain' (· ≤ ·)
      (((ChunkedUploader.uploadFile env file).2.2).map ProgressSample.percentage)
  ∧ (env.initOk = true → (∀ i r, env.chunkOk i r = true) →
      (ChunkedUploader.uploadFile env file).2.2 =
        (List.range (totalChunksOf file.size)).map
          (progressSampleAt file.name file.size (totalChunksOf file.size))
      ∧ (((ChunkedUploader.uploadFile env file).2.2).map ProgressSample.percentage).getLast? =
          some 100) := by
  refine ⟨uploadFile_samples env file, ?_, ?_⟩
  · obtain ⟨k, hk, he⟩ := uploadFile_samples env file
    rw [he, List.map_map]
    exact chain_le_map_range'
      (ProgressSample.percentage ∘ progressSampleAt file.name file.size (totalChunksOf file.size))
      (fun j => jsRound100_mono _ _ _ (chunkStop_mono file.size j)) k 0
  · intro hinit hok
    have hok0 : ∀ i, env.chunkOk i 0 = true := fun i => hok i 0
    have hbody := uploadChunksAux_allOk env file.name env.uploadId file.size
      (totalChunksOf file.size) hok0 (totalChunksOf file.size) 0
    have hsamples : (ChunkedUploader.uploadFile env file).2.2 =
        (List.range (totalChunksOf file.size)).map
          (progressSampleAt file.name file.size (totalChunksOf file.size)) := by
      unfold ChunkedUploader.uploadFile
      rw [hinit, if_pos rfl, hbody, ← List.range_eq_range']
      cases hfin : env.finalizeOk <;> simp [hfin]
    obtain ⟨q, hq⟩ : ∃ q, totalChunksOf file.size = q + 1 :=
      ⟨(file.size - 1) / CHUNK_SIZE, totalChunksOf_eq_succ file.size hpos⟩
    refine ⟨hsamples, ?_⟩
    have hstop : chunkStop file.size q = file.size := by
      have h1 : file.size ≤ (q + 1) * CHUNK_SIZE := hq ▸ le_totalChunksOf_mul file.size hpos
      have h2 : q * CHUNK_SIZE + CHUNK_SIZE = (q + 1) * CHUNK_SIZE := (Nat.succ_mul q CHUNK_SIZE).symm
      unfold chunkStop chunkStart
      omega
    rw [hsamples, List.map_map, hq, List.range_succ, List.map_append]
    simp only [List.map_cons, List.map_nil, List.getLast?_concat]
    simp [progressSampleAt, hstop, jsRound100_self file.size hpos]

/-- Witness for C6: a run failing at chunk 1 of the 12MB file still has
non-decreasing percentages, and a fully successful run on the same file
ends at percentage 100. -/
theorem c6_progress_monotone_witness :
    List.Chain' (· ≤ ·)
      (((ChunkedUploader.uploadFile chunk1FailEnv file12).2.2).map ProgressSample.percentage)
  ∧ (((ChunkedUploader.uploadFile allOkEnv file12).2.2).map ProgressSample.percentage).getLast? =
      some 100 :=
  ⟨(c6_progress_monotone chunk1FailEnv file12 (by decide)).2.1,
   ((c6_progress_monotone allOkEnv file12 (by decide)).2.2 rfl (fun _ _ => rfl)).2⟩

theorem uploadFile_requests_session (env : ChunkEnv) (file : File) :
    ∀ r ∈ (ChunkedUploader.uploadFile env file).2.1, isSessionRequest r = true := by
  intro r hr
  unfold ChunkedUploader.uploadFile at hr
  by_cases hinit : env.initOk
  · rw [if_pos hinit] at hr
    rcases hm : uploadChunksAux env file.name env.uploadId file.size (totalChunksOf file.size)
        0 (totalChunksOf file.size) with ⟨res, reqs, ps⟩
    rw [hm] at hr
    have hreqs : ∀ x ∈ reqs, isSessionRequest x = true := by
      intro x hx
      exact uploadChunksAux_session env file.name env.uploadId file.size (totalChunksOf file.size)
        (totalChunksOf file.size) 0 x (by rw [hm]; exact hx)
    cases res with
    | error msg =>
      rcases List.mem_cons.mp hr with h | h
      · rw [h]; rfl
      · exact hreqs r h
    | ok u =>
      cases hfin : env.finalizeOk <;> rw [hfin] at hr <;> simp only [Bool.false_eq_true,
        if_false, if_true, List.mem_cons, List.mem_append, List.mem_singleton] at hr <;>
        rcases hr with (h | h) | h | hnil
      · rw [h]; rfl
      · exact hreqs r h
      · rw [h]; rfl
      · exact absurd hnil (List.not_mem_nil r)
      · rw [h]; rfl
      · exact hreqs r h
      · rw [h]; rfl
      · exact absurd hnil (List.not_mem_nil r)
  · rw [if_neg hinit] at hr
    rcases List.mem_singleton.mp hr with h
    rw [h]; rfl

theorem uploadFile_result_shape (env : ChunkEnv) (file : File) :
    ((ChunkedUploader.uploadFile env file).1.success = true ∧
       (ChunkedUploader.uploadFile env file).1 =
         { success := true, uploadId := env.uploadId, fileName := file.name,
           finalUrl := some env.finalUrl, error := none })
  ∨ ((ChunkedUploader.uploadFile env file).1.success = false ∧
       (ChunkedUploader.uploadFile env file).1.fileName = file.name ∧
       (ChunkedUploader.uploadFile env file).1.uploadId = "" ∧
       ((ChunkedUploader.uploadFile env file).1.error).isSome = true) := by
  unfold ChunkedUploader.uploadFile
  by_cases hinit : env.initOk
  · rw [if_pos hinit]
    rcases hm : uploadChunksAux env file.name env.uploadId file.size (totalChunksOf file.size)
        0 (totalChunksOf file.size) with ⟨res, reqs, ps⟩
    cases res with
    | error msg => right; exact ⟨rfl, rfl, rfl, rfl⟩
    | ok u =>
      cases hfin : env.finalizeOk
      · right; exact ⟨rfl, rfl, rfl, rfl⟩
      · left; exact ⟨rfl, rfl⟩
  · rw [if_neg hinit]; right; exact ⟨rfl, rfl, rfl, rfl⟩

/-- C9: uploadFile is total (it catches every failure): a failed run
returns a structured result carrying the file name, an error message and
the empty uploadId; every request it ever issues is a session request
(init, chunk or finalize — never a deletion of uploaded chunks); a
successful run returns the file name, the session uploadId and the
finalize URL. -/
theorem c9_structured_failure (env : ChunkEnv) (file : File) :
    ((ChunkedUploader.uploadFile env file).1.success = false →
        (ChunkedUploader.uploadFile env file).1.fileName = file.name
      ∧ (ChunkedUploader.uploadFile env file).1.uploadId = ""
      ∧ ((ChunkedUploader.uploadFile env file).1.error).isSome = true)
  ∧ (∀ r ∈ (ChunkedUploader.uploadFile env file).2.1, isSessionRequest r = true)
  ∧ ((ChunkedUploader.uploadFile env file).1.success = true →
        (ChunkedUploader.uploadFile env file).1.fileName = file.name
      ∧ (ChunkedUploader.uploadFile env file).1.uploadId = env.uploadId
      ∧ (ChunkedUploader.uploadFile env file).1.finalUrl = some env.finalUrl) := by
  refine ⟨?_, uploadFile_requests_session env file, ?_⟩
  · intro h
    rcases uploadFile_result_shape env file with ⟨hs, _⟩ | ⟨_, hres⟩
    · rw [hs] at h; exact absurd h (by simp)
    · exact hres
  · intro h
    rcases uploadFile_result_shape env file with ⟨_, hres⟩ | ⟨hs, _⟩
    · rw [hres]; exact ⟨rfl, rfl, rfl⟩
    · rw [hs] at h; exact absurd h (by simp)

/-- Witness for C9: a failed init run on a 12MB file yields the structured
failure fields, and a fully successful run on a 10MB file yields the
finalize URL. -/
theorem c9_structured_failure_witness :
    (ChunkedUploader.uploadFile initFailEnv file12).1.fileName = file12.name
  ∧ (ChunkedUploader.uploadFile initFailEnv file12).1.uploadId = ""
  ∧ ((ChunkedUploader.uploadFile initFailEnv file12).1.error).isSome = true
  ∧ (ChunkedUploader.uploadFile allOkEnv file10).1.finalUrl = some allOkEnv.finalUrl :=
  ⟨((c9_structured_failure initFailEnv file12).1 (by decide)).1,
   ((c9_structured_failure initFailEnv file12).1 (by decide)).2.1,
   ((c9_structured_failure initFailEnv file12).1 (by decide)).2.2,
   ((c9_structured_failure allOkEnv file10).2.2 (by decide)).2.2⟩

/-- Counterexample for C2 as stated: for the 26MB file (over the 25MB
threshold) the classifier does return true, yet the uploadDocuments entry
point invoked on it issues the direct whole-file multipart POST to
/api/upload — no chunk-session request at all — because its routing looks
only at the batch total against the 30MB limit. -/
theorem c2_classifier_counterexample :
    needsChunkedUpload file26 = true
  ∧ (GrantAPI.uploadDocuments okNet (some [file26])).2 = [Request.uploadBatch [file26]]
  ∧ ∀ r ∈ (GrantAPI.uploadDocuments okNet (some [file26])).2, isSessionRequest r = false := by
  refine ⟨rfl, rfl, ?_⟩
  intro r hr
  rw [show (GrantAPI.uploadDocuments okNet (some [file26])).2 =
      [Request.uploadBatch [file26]] from rfl] at hr
  rw [List.mem_singleton.mp hr]
  rfl

/-- C2 amended: needsChunkedUpload holds exactly of files over 25MB, and
the dashboard uploadFiles helper routes such a file through
ChunkedUploader.uploadFile, issuing only chunk-session requests; the
GrantAPI.uploadDocuments entry point, however, routes by batch total
alone, so it sends a 25MB-to-30MB file directly (see the counterexample). -/
theorem c2_classifier_routing (envF : FilesEnv) (f : File)
    (h : MAX_SIMPLE_UPLOAD < f.size) :
    needsChunkedUpload f = true
  ∧ (uploadFiles envF [f]).2 = (ChunkedUploader.uploadFile (envF.chunkEnv f) f).2.1
  ∧ ∀ r ∈ (uploadFiles envF [f]).2, isSessionRequest r = true := by
  have hn : needsChunkedUpload f = true := decide_eq_true h
  have htrace : (uploadFiles envF [f]).2 =
      (ChunkedUploader.uploadFile (envF.chunkEnv f) f).2.1 := by
    simp only [uploadFiles, uploadFilesAux, hn, if_true]
    cases hs : (ChunkedUploader.uploadFile (envF.chunkEnv f) f).1.success <;> simp [hs]
  refine ⟨hn, htrace, ?_⟩
  rw [htrace]
  exact uploadFile_requests_session (envF.chunkEnv f) f

/-- Witness for the amended C2 at the concrete 26MB file in a successful
session environment. -/
theorem c2_classifier_routing_witness :
    needsChunkedUpload file26 = true
  ∧ (uploadFiles okFilesEnv [file26]).2 =
      (ChunkedUploader.uploadFile (okFilesEnv.chunkEnv file26) file26).2.1 :=
  ⟨(c2_classifier_routing okFilesEnv file26 (by decide)).1,
   (c2_classifier_routing okFilesEnv file26 (by decide)).2.1⟩

/-- Counterexample for C7 as stated: uploadDocuments on one 120MB file
issues exactly one whole-file POST to /api/upload-single — zero chunk
POSTs and zero finalize calls, not 24 and 1. -/
theorem c7_scenario_b_counterexample :
    (GrantAPI.uploadDocuments okNet (some [file120])).2 = [Request.uploadSingle file120]
  ∧ chunkPostCount (GrantAPI.uploadDocuments okNet (some [file120])).2 = 0
  ∧ finalizeCount (GrantAPI.uploadDocuments okNet (some [file120])).2 = 0 :=
  ⟨rfl, rfl, rfl⟩

/-- C7 amended: a 120MB file through uploadDocuments takes the
uploadDocumentsChunked path, which issues exactly one whole-file POST to
/api/upload-single and returns a result tagged upload_method chunked; the
ChunkedUploader.uploadFile component (not invoked by this entry point)
would send exactly 24 sequential 5MB chunks (indices 0..23 in order)
followed by exactly one finalize call as its last request. -/
theorem c7_scenario_b :
    totalChunksOf file120.size = 24
  ∧ (GrantAPI.uploadDocuments okNet (some [file120])).2 = [Request.uploadSingle file120]
  ∧ (∃ res, (GrantAPI.uploadDocuments okNet (some [file120])).1 = .ok res
      ∧ res.upload_method = some ("chunked"))
  ∧ chunkPostCount (ChunkedUploader.uploadFile allOkEnv file120).2.1 = 24
  ∧ chunkIndices (ChunkedUploader.uploadFile allOkEnv file120).2.1 = List.range 24
  ∧ finalizeCount (ChunkedUploader.uploadFile allOkEnv file120).2.1 = 1
  ∧ ((ChunkedUploader.uploadFile allOkEnv file120).2.1).getLast? =
      some (Request.chunkFinalize allOkEnv.uploadId) :=
  ⟨rfl, rfl, ⟨_, rfl, rfl⟩, by decide, by decide, by decide, by decide⟩
